import Mathlib

/-!
# Shallow embedding of the cross-chain swap coordinator

This file embeds the swap-lifecycle coordinator of the
`crosschain-tokenpool` repository (`src/python/src/cross_chain_coordinator.py`
together with the configuration defaults of `src/python/src/config.py`) and
proves properties of its operations.

Modelling conventions:
* Python's `web3_manager` is modelled by a record of oracle functions
  (`Web3Manager`); every method of it returns `Option`-typed results exactly
  as the Python methods return `None` on failure.
* The coordinator's two dictionaries (`active_swaps`, `swap_secrets`) are
  association lists with Python-dict semantics (first-key lookup,
  overwriting assignment).
* Each public operation is a pure function from the environment and the
  coordinator state to a result, the successor state, and the list of
  adapter calls it performed (the call trace makes "no chain interaction"
  provable).
* `bytes.fromhex` is `bytesFromHex`, returning `none` where Python raises
  `ValueError`; the surrounding `try/except` blocks are embedded by matching
  on that `none`.
* SHA-256 itself is external to the repository (`hashlib`); it is passed in
  as an abstract digest function.
-/

/-- `SwapStatus`, cross_chain_coordinator.py lines 22-28. -/
inductive SwapStatus where
  | initiated
  | completed
  | refunded
  | expired
  | failed
deriving DecidableEq, Repr

/-- `CrossChainSwap` dataclass, cross_chain_coordinator.py lines 30-45.
Python `int` fields are `Int`; optional fields are `Option`. -/
structure CrossChainSwap where
  swap_id : String
  source_chain : String
  target_chain : String
  sender : String
  recipient : String
  amount : Int
  hash_lock : String
  secret : Option String
  time_lock : Int
  status : SwapStatus
  created_at : Int
  source_tx_hash : Option String := none
  target_tx_hash : Option String := none
deriving DecidableEq, Repr

/-- Transaction receipt as consumed by the coordinator: only the
`status` entry of the receipt dict is inspected. -/
structure Receipt where
  status : Int
deriving DecidableEq, Repr

/-- The `web3_manager` interface as consumed by the coordinator
(web3_manager.py): every call is fallible and returns `None` on failure.
`build_transaction` is keyed by chain and contract function name,
`send_transaction`/`wait_for_transaction` by chain (and tx hash), and
`extract_swap_id` models `_extract_swap_id_from_receipt`'s adapter-side
event decoding (contract log decoding happens outside the coordinator). -/
structure Web3Manager where
  build_transaction : String → String → Option String
  send_transaction : String → Option String
  wait_for_transaction : String → String → Option Receipt
  get_latest_block : String → Option Int
  extract_swap_id : String → Option String

/-- `CrossChainConfig`, config.py lines 22-30 and 69-73 (defaults). -/
structure CrossChainConfig where
  default_time_lock_blocks : Int
  secret_length : Nat
  max_swap_amount : Int
  min_swap_amount : Int
deriving DecidableEq, Repr

/-- Full configuration as used by the coordinator: the supported chain
names (keys of `Config.CHAINS`) and the cross-chain parameters. -/
structure Config where
  chains : List String
  cross_chain : CrossChainConfig
deriving DecidableEq, Repr

/-- The defaults from config.py: chains `ethereum` and `bsc`,
`default_time_lock_blocks = 100`, `secret_length = 32`,
swap amount bounds `[1, 1000]`. -/
def defaultConfig : Config :=
  { chains := ["ethereum", "bsc"]
    cross_chain :=
      { default_time_lock_blocks := 100
        secret_length := 32
        max_swap_amount := 1000
        min_swap_amount := 1 } }

/-- Coordinator state: the two dictionaries guarded by `self._lock`
(cross_chain_coordinator.py lines 50-53), as association lists. -/
structure CoordinatorState where
  active_swaps : List (String × CrossChainSwap)
  swap_secrets : List (String × String)
deriving DecidableEq, Repr

/-- Python `dict.get`: value of the first binding of the key. -/
def dictGet {α : Type} : List (String × α) → String → Option α
  | [], _ => none
  | (k', v) :: rest, k => if k' = k then some v else dictGet rest k

/-- Python `d[k] = v`: overwrite the first binding of the key, or append. -/
def dictSet {α : Type} : List (String × α) → String → α → List (String × α)
  | [], k, v => [(k, v)]
  | (k', v') :: rest, k, v =>
      if k' = k then (k, v) :: rest else (k', v') :: dictSet rest k v

/-- The sixteen lowercase hexadecimal digit characters. -/
def hexDigitChar : Nat → Char
  | 0 => '0' | 1 => '1' | 2 => '2' | 3 => '3'
  | 4 => '4' | 5 => '5' | 6 => '6' | 7 => '7'
  | 8 => '8' | 9 => '9' | 10 => 'a' | 11 => 'b'
  | 12 => 'c' | 13 => 'd' | 14 => 'e' | 15 => 'f'
  | _ => '0'

/-- Two lowercase hex characters of one byte. -/
def byteToHexChars (b : Nat) : List Char :=
  [hexDigitChar (b / 16), hexDigitChar (b % 16)]

/-- Lowercase hex encoding of a byte string (Python `bytes.hex()` /
the output format of `secrets.token_hex`). -/
def bytesToHexString (bs : List Nat) : String :=
  ⟨(bs.map byteToHexChars).flatten⟩

/-- Value of one hexadecimal character, `none` if not a hex digit. -/
def hexCharVal (c : Char) : Option Nat :=
  if '0' ≤ c ∧ c ≤ '9' then some (c.toNat - '0'.toNat)
  else if 'a' ≤ c ∧ c ≤ 'f' then some (c.toNat - 'a'.toNat + 10)
  else if 'A' ≤ c ∧ c ≤ 'F' then some (c.toNat - 'A'.toNat + 10)
  else none

/-- Decode a hex character sequence to bytes; `none` on an odd length or a
non-hex character (where Python's `bytes.fromhex` raises `ValueError`). -/
def hexPairsToBytes : List Char → Option (List Nat)
  | [] => some []
  | [_] => none
  | c1 :: c2 :: rest =>
      match hexCharVal c1, hexCharVal c2, hexPairsToBytes rest with
      | some h, some l, some bs => some ((16 * h + l) :: bs)
      | _, _, _ => none

/-- Python `bytes.fromhex`, with `none` for the raised `ValueError`. -/
def bytesFromHex (s : String) : Option (List Nat) :=
  hexPairsToBytes s.data

/-- The `0x`-prefix stripping done in `complete`/`refund`/responders:
`s[2:] if s.startswith('0x') else s`. -/
def strip0x (s : String) : String :=
  match s.data with
  | '0' :: 'x' :: rest => String.mk rest
  | _ => s

/-- `secrets.token_hex` (Python stdlib): hex string of freshly drawn random
bytes. The random bytes are an explicit input of the model; the stdlib
guarantees `token_hex n` draws exactly `n` bytes. -/
def token_hex (randomBytes : List Nat) : String :=
  bytesToHexString randomBytes

/-- `generate_secret`, cross_chain_coordinator.py lines 55-59:
`secret = token_hex(secret_length)`;
`hash_lock = sha256(bytes.fromhex(secret)).hexdigest()`.
`sha256` is the abstract digest function (bytes to bytes); `randomBytes`
are the bytes drawn by `token_hex`. The `getD []` is unreachable for
well-formed random bytes (`bytes.fromhex` of a `token_hex` output never
raises). -/
def generate_secret (sha256 : List Nat → List Nat) (randomBytes : List Nat) :
    String × String :=
  let secret := token_hex randomBytes
  let hash_lock := bytesToHexString (sha256 ((bytesFromHex secret).getD []))
  (secret, hash_lock)

/-- One recorded adapter call, for stating "no chain interaction". -/
inductive Call where
  | build (chain fn : String)
  | send (chain : String)
  | wait (chain : String)
  | latest (chain : String)
  | extract (chain : String)
deriving DecidableEq, Repr

/-- Result of `_initiate_cross_chain_swap`: the returned value
(`Optional[CrossChainSwap]`), the successor state, and the adapter calls
performed. -/
structure InitiateResult where
  swap? : Option CrossChainSwap
  state : CoordinatorState
  calls : List Call
deriving DecidableEq, Repr

/-- Result of the `bool`-returning operations (`complete`, `refund`). -/
structure OpResult where
  ok : Bool
  state : CoordinatorState
  calls : List Call
deriving DecidableEq, Repr

/-- `_validate_swap_params`, cross_chain_coordinator.py lines 341-370:
supported chains, amount within `[min_swap_amount, max_swap_amount]`,
non-empty sender and recipient. -/
def validate_swap_params (cfg : Config)
    (source_chain target_chain sender recipient : String) (amount : Int) :
    Bool :=
  if ¬ (source_chain ∈ cfg.chains ∧ target_chain ∈ cfg.chains) then false
  else if amount < cfg.cross_chain.min_swap_amount then false
  else if amount > cfg.cross_chain.max_swap_amount then false
  else if sender = "" ∨ recipient = "" then false
  else true

/-- The `try` block of `_initiate_cross_chain_swap`,
cross_chain_coordinator.py lines 133-192, after the secret/hash-lock pair
and the time-lock default have been resolved. `now` is `int(time.time())`;
`bytesFromHex hash_lock` models the `bytes.fromhex(hash_lock)` argument
evaluation whose `ValueError` the `except` clause turns into a `None`
return. -/
def initiate_try (w3 : Web3Manager) (now : Int) (st : CoordinatorState)
    (source_chain target_chain sender recipient : String) (amount : Int)
    (secret hash_lock : String) (tlb : Int) : InitiateResult :=
  match bytesFromHex hash_lock with
    | none => ⟨none, st, []⟩
    | some _ =>
      match w3.build_transaction source_chain "initiateCrossChain" with
      | none => ⟨none, st, [.build source_chain "initiateCrossChain"]⟩
      | some _tx_data =>
        match w3.send_transaction source_chain with
        | none => ⟨none, st,
            [.build source_chain "initiateCrossChain", .send source_chain]⟩
        | some tx_hash =>
          match w3.wait_for_transaction source_chain tx_hash with
          | none => ⟨none, st,
              [.build source_chain "initiateCrossChain", .send source_chain,
               .wait source_chain]⟩
          | some receipt =>
            if receipt.status ≠ 1 then
              ⟨none, st,
                [.build source_chain "initiateCrossChain", .send source_chain,
                 .wait source_chain]⟩
            else
              match w3.extract_swap_id source_chain with
              | none => ⟨none, st,
                  [.build source_chain "initiateCrossChain", .send source_chain,
                   .wait source_chain, .extract source_chain]⟩
              | some swap_id =>
                let swap : CrossChainSwap :=
                  { swap_id := swap_id
                    source_chain := source_chain
                    target_chain := target_chain
                    sender := sender
                    recipient := recipient
                    amount := amount
                    hash_lock := hash_lock
                    secret := some secret
                    time_lock := tlb
                    status := .initiated
                    created_at := now
                    source_tx_hash := some tx_hash }
                ⟨some swap,
                  { active_swaps := dictSet st.active_swaps swap_id swap
                    swap_secrets := dictSet st.swap_secrets swap_id secret },
                  [.build source_chain "initiateCrossChain", .send source_chain,
                   .wait source_chain, .extract source_chain]⟩

/-- `_initiate_cross_chain_swap`, cross_chain_coordinator.py lines 108-192:
validation (lines 121-123), secret/hash-lock resolution (lines 125-127,
with `sha256`/`randomBytes` feeding the `generate_secret` branch), the
time-lock default (lines 129-131), then the `try` block (`initiate_try`). -/
def initiate_cross_chain_swap (cfg : Config) (w3 : Web3Manager)
    (sha256 : List Nat → List Nat) (randomBytes : List Nat) (now : Int)
    (st : CoordinatorState)
    (source_chain target_chain sender recipient : String) (amount : Int)
    (time_lock_blocks : Option Int) (secret? hash_lock? : Option String) :
    InitiateResult :=
  if ¬ validate_swap_params cfg source_chain target_chain sender recipient amount then
    ⟨none, st, []⟩
  else
    let sh : String × String :=
      match secret?, hash_lock? with
      | some s, some h => (s, h)
      | _, _ => generate_secret sha256 randomBytes
    initiate_try w3 now st source_chain target_chain sender recipient amount
      sh.1 sh.2 (time_lock_blocks.getD cfg.cross_chain.default_time_lock_blocks)

/-- `_is_swap_expired`, cross_chain_coordinator.py lines 392-398:
`if not current_block: return False; return current_block > swap.time_lock`.
A `None` or `0` height (both falsy in Python) yields `false`. -/
def is_swap_expired (w3 : Web3Manager) (swap : CrossChainSwap) : Bool :=
  match w3.get_latest_block swap.source_chain with
  | none => false
  | some h => if h = 0 then false else decide (h > swap.time_lock)

/-- Step 2 of `complete_cross_chain_swap` (mint on target chain),
cross_chain_coordinator.py lines 235-263. `pre` is the call trace of
step 1. -/
def complete_step2 (w3 : Web3Manager) (st : CoordinatorState)
    (swap_id : String) (swap : CrossChainSwap) (pre : List Call) : OpResult :=
  match w3.build_transaction swap.target_chain "mintForCrossChain" with
  | none => ⟨false, st, pre ++ [.build swap.target_chain "mintForCrossChain"]⟩
  | some _ =>
    match w3.send_transaction swap.target_chain with
    | none => ⟨false, st,
        pre ++ [.build swap.target_chain "mintForCrossChain",
                .send swap.target_chain]⟩
    | some target_tx_hash =>
      match w3.wait_for_transaction swap.target_chain target_tx_hash with
      | none => ⟨false, st,
          pre ++ [.build swap.target_chain "mintForCrossChain",
                  .send swap.target_chain, .wait swap.target_chain]⟩
      | some receipt =>
        if receipt.status ≠ 1 then
          ⟨false, st,
            pre ++ [.build swap.target_chain "mintForCrossChain",
                    .send swap.target_chain, .wait swap.target_chain]⟩
        else
          let swap' := { swap with
            status := .completed
            target_tx_hash := some target_tx_hash }
          ⟨true,
            { st with active_swaps := dictSet st.active_swaps swap_id swap' },
            pre ++ [.build swap.target_chain "mintForCrossChain",
                    .send swap.target_chain, .wait swap.target_chain]⟩

/-- `complete_cross_chain_swap`, cross_chain_coordinator.py lines 194-269.
Faithful points: step 1's block is guarded by `if source_tx_data:` and
`if source_tx_hash:` with no `else`, so a failed build or send of the
source-chain claim FALLS THROUGH to step 2; only a failed confirmation
returns `False`. A `ValueError` from `bytes.fromhex` on the swap id or
secret is caught by the `except` clause, which sets status `FAILED` and
returns `False`. An empty-string secret is falsy (`if not secret`). -/
def complete_cross_chain_swap (w3 : Web3Manager) (st : CoordinatorState)
    (swap_id : String) : OpResult :=
  match dictGet st.active_swaps swap_id with
  | none => ⟨false, st, []⟩
  | some swap =>
    if swap.status ≠ .initiated then ⟨false, st, []⟩
    else
      match dictGet st.swap_secrets swap_id with
      | none => ⟨false, st, []⟩
      | some secret =>
        if secret = "" then ⟨false, st, []⟩
        else
          match bytesFromHex (strip0x swap_id), bytesFromHex (strip0x secret) with
          | some _, some _ =>
            match w3.build_transaction swap.source_chain "completeCrossChain" with
            | none =>
              complete_step2 w3 st swap_id swap
                [.build swap.source_chain "completeCrossChain"]
            | some _ =>
              match w3.send_transaction swap.source_chain with
              | none =>
                complete_step2 w3 st swap_id swap
                  [.build swap.source_chain "completeCrossChain",
                   .send swap.source_chain]
              | some source_tx_hash =>
                match w3.wait_for_transaction swap.source_chain source_tx_hash with
                | none => ⟨false, st,
                    [.build swap.source_chain "completeCrossChain",
                     .send swap.source_chain, .wait swap.source_chain]⟩
                | some receipt =>
                  if receipt.status = 1 then
                    complete_step2 w3 st swap_id swap
                      [.build swap.source_chain "completeCrossChain",
                       .send swap.source_chain, .wait swap.source_chain]
                  else
                    ⟨false, st,
                      [.build swap.source_chain "completeCrossChain",
                       .send swap.source_chain, .wait swap.source_chain]⟩
          | _, _ =>
            let swap' := { swap with status := SwapStatus.failed }
            ⟨false,
              { st with active_swaps := dictSet st.active_swaps swap_id swap' },
              []⟩

/-- `refund_cross_chain_swap`, cross_chain_coordinator.py lines 271-325.
Requires the swap to exist with status `INITIATED`; checks expiry before
any transaction is built; a `ValueError` from `bytes.fromhex(swap_id)` is
caught by the `except` clause which just returns `False` (no status
change). On a confirmed refund the status becomes `REFUNDED`. -/
def refund_cross_chain_swap (w3 : Web3Manager) (st : CoordinatorState)
    (swap_id : String) : OpResult :=
  match dictGet st.active_swaps swap_id with
  | none => ⟨false, st, []⟩
  | some swap =>
    if swap.status ≠ .initiated then ⟨false, st, []⟩
    else
      if ¬ is_swap_expired w3 swap then ⟨false, st, [.latest swap.source_chain]⟩
      else
        match bytesFromHex (strip0x swap_id) with
        | none => ⟨false, st, [.latest swap.source_chain]⟩
        | some _ =>
          match w3.build_transaction swap.source_chain "refundCrossChain" with
          | none => ⟨false, st,
              [.latest swap.source_chain,
               .build swap.source_chain "refundCrossChain"]⟩
          | some _ =>
            match w3.send_transaction swap.source_chain with
            | none => ⟨false, st,
                [.latest swap.source_chain,
                 .build swap.source_chain "refundCrossChain",
                 .send swap.source_chain]⟩
            | some tx_hash =>
              match w3.wait_for_transaction swap.source_chain tx_hash with
              | none => ⟨false, st,
                  [.latest swap.source_chain,
                   .build swap.source_chain "refundCrossChain",
                   .send swap.source_chain, .wait swap.source_chain]⟩
              | some receipt =>
                if receipt.status ≠ 1 then
                  ⟨false, st,
                    [.latest swap.source_chain,
                     .build swap.source_chain "refundCrossChain",
                     .send swap.source_chain, .wait swap.source_chain]⟩
                else
                  let swap' := { swap with status := SwapStatus.refunded }
                  ⟨true,
                    { st with active_swaps := dictSet st.active_swaps swap_id swap' },
                    [.latest swap.source_chain,
                     .build swap.source_chain "refundCrossChain",
                     .send swap.source_chain, .wait swap.source_chain]⟩

/-- The loop body of `monitor_active_swaps`, cross_chain_coordinator.py
lines 332-339: each entry with status `INITIATED` whose expiry check holds
has its status set to `EXPIRED`; every other entry is untouched. -/
def monitor_swaps_loop (w3 : Web3Manager) :
    List (String × CrossChainSwap) → List (String × CrossChainSwap)
  | [] => []
  | (swap_id, swap) :: rest =>
    if swap.status = .initiated then
      if is_swap_expired w3 swap then
        (swap_id, { swap with status := .expired }) :: monitor_swaps_loop w3 rest
      else
        (swap_id, swap) :: monitor_swaps_loop w3 rest
    else
      (swap_id, swap) :: monitor_swaps_loop w3 rest

/-- `monitor_active_swaps`, cross_chain_coordinator.py lines 332-339. -/
def monitor_active_swaps (w3 : Web3Manager) (st : CoordinatorState) :
    CoordinatorState :=
  { st with active_swaps := monitor_swaps_loop w3 st.active_swaps }

/-! ## Concrete fixtures for counterexamples and witnesses -/

/-- An `Initiated` swap with time lock 100 on source chain `src`. -/
def swapInit : CrossChainSwap :=
  { swap_id := "ab", source_chain := "src", target_chain := "tgt"
    sender := "alice", recipient := "bob", amount := 100
    hash_lock := "cd", secret := some "cd", time_lock := 100
    status := .initiated, created_at := 0 }

/-- The same swap after the expiry sweep marked it `Expired`. -/
def swapExpired : CrossChainSwap := { swapInit with status := .expired }

/-- A store holding the `Initiated` swap and its secret. -/
def stInit : CoordinatorState :=
  { active_swaps := [("ab", swapInit)], swap_secrets := [("ab", "cd")] }

/-- A store holding the `Expired` swap and its secret. -/
def stExpired : CoordinatorState :=
  { active_swaps := [("ab", swapExpired)], swap_secrets := [("ab", "cd")] }

/-- An environment where every adapter call succeeds (receipts confirm with
status 1, the extracted swap id is `"ab"`) and the latest block height of
every chain is `h`. -/
def w3All (h : Int) : Web3Manager :=
  { build_transaction := fun _ _ => some "tx"
    send_transaction := fun c => some c
    wait_for_transaction := fun _ _ => some ⟨1⟩
    get_latest_block := fun _ => some h
    extract_swap_id := fun _ => some "ab" }

/-- Like `w3All`, but building any transaction on chain `src` fails
(`build_transaction` returns `None`). -/
def w3SourceBuildFails : Web3Manager :=
  { build_transaction := fun c _ => if c = "src" then none else some "tx"
    send_transaction := fun c => some c
    wait_for_transaction := fun _ _ => some ⟨1⟩
    get_latest_block := fun _ => some 200
    extract_swap_id := fun _ => some "ab" }

/-- Like `w3All`, but building any transaction on chain `tgt` fails. -/
def w3TargetBuildFails : Web3Manager :=
  { build_transaction := fun c _ => if c = "tgt" then none else some "tx"
    send_transaction := fun c => some c
    wait_for_transaction := fun _ _ => some ⟨1⟩
    get_latest_block := fun _ => some 200
    extract_swap_id := fun _ => some "ab" }

/-- Like `w3All`, but sending any transaction on chain `tgt` fails
(`send_transaction` returns `None`). -/
def w3TargetSendFails : Web3Manager :=
  { build_transaction := fun _ _ => some "tx"
    send_transaction := fun c => if c = "tgt" then none else some c
    wait_for_transaction := fun _ _ => some ⟨1⟩
    get_latest_block := fun _ => some 200
    extract_swap_id := fun _ => some "ab" }

/-- An environment in which the latest block height cannot be read. -/
def w3NoHeight : Web3Manager :=
  { build_transaction := fun _ _ => some "tx"
    send_transaction := fun c => some c
    wait_for_transaction := fun _ _ => some ⟨1⟩
    get_latest_block := fun _ => none
    extract_swap_id := fun _ => some "ab" }

/-- A store whose swap `"ab"` has a secret that is not valid hexadecimal
(odd length, non-hex characters), so `bytes.fromhex` raises in `complete`. -/
def stBadSecret : CoordinatorState :=
  { active_swaps := [("ab", swapInit)], swap_secrets := [("ab", "xyz")] }

/-- A record already stored under id `"ab"` before an `initiate` whose
source-chain contract assigns the same id `"ab"` again. -/
def swapOld : CrossChainSwap := { swapInit with amount := 7 }

/-- A store already holding `swapOld` under id `"ab"`. -/
def stPre : CoordinatorState :=
  { active_swaps := [("ab", swapOld)], swap_secrets := [("ab", "cd")] }

/-- The swap a successful
`initiate('ethereum','bsc','alice','bob',100, secret='cd', hash_lock='cd')`
stores under the extracted id `"ab"` at time 99 in environment `w3All 10`. -/
def swapNew : CrossChainSwap :=
  { swap_id := "ab", source_chain := "ethereum", target_chain := "bsc"
    sender := "alice", recipient := "bob", amount := 100
    hash_lock := "cd", secret := some "cd", time_lock := 100
    status := .initiated, created_at := 99, source_tx_hash := some "ethereum" }

/-- The per-swap transition the spec ascribes to the expiry sweep: flip an
`Initiated` swap whose expiry condition holds to `Expired`, touching no
other field; leave every other swap untouched. (Spec-side characterization
used to compare `monitor_active_swaps` against the spec's words.) -/
def sweepSpecStep (w3 : Web3Manager) (s : CrossChainSwap) : CrossChainSwap :=
  if s.status = SwapStatus.initiated ∧ is_swap_expired w3 s then
    { s with status := SwapStatus.expired }
  else s

/-! ## Helper lemmas -/

theorem hexCharVal_hexDigitChar : ∀ n, n < 16 → hexCharVal (hexDigitChar n) = some n := by
  decide

theorem hexPairs_roundtrip : ∀ bs : List Nat, (∀ b ∈ bs, b < 256) →
    hexPairsToBytes ((bs.map byteToHexChars).flatten) = some bs := by
  intro bs
  induction bs with
  | nil => intro _; rfl
  | cons b rest ih =>
    intro h
    have hb : b < 256 := h b (List.mem_cons_self _ _)
    have hdiv : b / 16 < 16 := by omega
    have hmod : b % 16 < 16 := by omega
    have ihr := ih (fun x hx => h x (List.mem_cons_of_mem _ hx))
    simp [byteToHexChars, hexPairsToBytes,
      hexCharVal_hexDigitChar _ hdiv, hexCharVal_hexDigitChar _ hmod, ihr,
      Nat.div_add_mod]

theorem bytesFromHex_bytesToHexString (bs : List Nat) (h : ∀ b ∈ bs, b < 256) :
    bytesFromHex (bytesToHexString bs) = some bs :=
  hexPairs_roundtrip bs h

theorem bytesToHexString_length (bs : List Nat) :
    (bytesToHexString bs).length = 2 * bs.length := by
  induction bs with
  | nil => rfl
  | cons b rest ih =>
    simp only [bytesToHexString, String.length, byteToHexChars, List.map_cons,
      List.flatten_cons] at *
    simp only [List.length_append, List.length_cons, List.length_nil]
    omega

theorem dictGet_dictSet_self {α : Type} (d : List (String × α)) (k : String) (v : α) :
    dictGet (dictSet d k v) k = some v := by
  induction d with
  | nil => simp [dictGet, dictSet]
  | cons p rest ih =>
    obtain ⟨k', v'⟩ := p
    by_cases hk : k' = k
    · simp [dictGet, dictSet, hk]
    · simp [dictGet, dictSet, hk, ih]

theorem monitor_loop_get (w3 : Web3Manager) (l : List (String × CrossChainSwap))
    (k : String) :
    dictGet (monitor_swaps_loop w3 l) k = (dictGet l k).map (sweepSpecStep w3) := by
  induction l with
  | nil => rfl
  | cons p rest ih =>
    obtain ⟨k', s⟩ := p
    by_cases hst : s.status = SwapStatus.initiated
    · by_cases hexp : is_swap_expired w3 s
      · by_cases hk : k' = k <;>
          simp [monitor_swaps_loop, dictGet, hst, hexp, hk, ih, sweepSpecStep]
      · by_cases hk : k' = k <;>
          simp [monitor_swaps_loop, dictGet, hst, hexp, hk, ih, sweepSpecStep]
    · by_cases hk : k' = k <;>
        simp [monitor_swaps_loop, dictGet, hst, hk, ih, sweepSpecStep]

/-! ## C1 — refunding an `Expired` swap -/

/-- C1 counterexample: a swap whose status the sweep set to `Expired`, and
whose expiry condition holds (height 200 > time lock 100), can NOT be
refunded: `refund_cross_chain_swap` returns `False`, performs no adapter
call, and leaves the state (status `Expired`) unchanged — the status check
`swap.status != SwapStatus.INITIATED` rejects it before the expiry check. -/
theorem refund_expired_swap_fails_cex :
    is_swap_expired (w3All 200) swapExpired = true ∧
    refund_cross_chain_swap (w3All 200) stExpired "ab" = ⟨false, stExpired, []⟩ := by
  decide

/-- C1 (amended): a refund call on a swap in status `Expired` always fails:
it returns `False`, makes no adapter call, and leaves the store unchanged,
because `refund_cross_chain_swap` requires status `Initiated`. -/
theorem refund_requires_initiated (w3 : Web3Manager) (st : CoordinatorState)
    (swap_id : String) (swap : CrossChainSwap)
    (hget : dictGet st.active_swaps swap_id = some swap)
    (hstatus : swap.status = SwapStatus.expired) :
    refund_cross_chain_swap w3 st swap_id = ⟨false, st, []⟩ := by
  unfold refund_cross_chain_swap
  rw [hget]
  simp [hstatus]

/-- C1 witness: the amended theorem applied to the concrete `Expired`
fixture at height 300. -/
theorem refund_requires_initiated_witness :
    refund_cross_chain_swap (w3All 300) stExpired "ab" = ⟨false, stExpired, []⟩ :=
  refund_requires_initiated (w3All 300) stExpired "ab" swapExpired
    (by decide) (by decide)

/-! ## C2 — what `initiate` stores in `time_lock` -/

/-- C2: at source-chain height 1000, a successful
`initiate('ethereum','bsc','alice','bob',100, time_lock_blocks = 50)`
stores `time_lock = 50` — the relative `timeLockBlocks` parameter, not the
absolute height 1050 — and `_is_swap_expired` immediately reports the
fresh swap as expired (1000 > 50), although the on-chain lock expires at
height 1050. -/
theorem initiate_time_lock_relative :
    ((initiate_cross_chain_swap defaultConfig (w3All 1000) (fun l => l) [0] 12345
        ⟨[], []⟩ "ethereum" "bsc" "alice" "bob" 100 (some 50) none none).swap?.map
          (fun s => (s.time_lock, is_swap_expired (w3All 1000) s))) =
      some (50, true) := by
  decide

/-! ## C3 — step-1 failure handling in `complete` -/

/-- C3: when building the source-chain claim transaction fails
(`build_transaction` returns `None`), `complete_cross_chain_swap` does NOT
abort: the `if source_tx_data:` block has no `else`, so control falls
through to step 2, the target-chain release is built, sent and confirmed,
the swap is marked `Completed`, and the call returns `True` — no claim was
ever submitted on the source chain. -/
theorem complete_claim_build_failure_proceeds :
    (complete_cross_chain_swap w3SourceBuildFails stInit "ab").ok = true ∧
    dictGet (complete_cross_chain_swap w3SourceBuildFails stInit "ab").state.active_swaps
        "ab" = some ({ swapInit with status := .completed, target_tx_hash := some "tgt" }) ∧
    (complete_cross_chain_swap w3SourceBuildFails stInit "ab").calls =
      [.build "src" "completeCrossChain", .build "tgt" "mintForCrossChain",
       .send "tgt", .wait "tgt"] ∧
    Call.send "src" ∉ (complete_cross_chain_swap w3SourceBuildFails stInit "ab").calls := by
  decide

/-! ## C8 — secret generation -/

/-- C8: for any digest function and any batch of random bytes of the
configured length, `generate_secret` returns a secret hex string that
decodes to exactly those `secret_length` bytes (so the secret is
`secret_length` bytes long, 2·`secret_length` hex characters), and a hash
lock equal to the hex digest of the secret's bytes. -/
theorem generate_secret_spec (sha256 : List Nat → List Nat)
    (cfg : CrossChainConfig) (rb : List Nat)
    (hlen : rb.length = cfg.secret_length)
    (hbytes : ∀ b ∈ rb, b < 256) :
    bytesFromHex (generate_secret sha256 rb).1 = some rb ∧
    (generate_secret sha256 rb).2 = bytesToHexString (sha256 rb) ∧
    (generate_secret sha256 rb).1.length = 2 * cfg.secret_length := by
  have hrt : bytesFromHex (token_hex rb) = some rb :=
    bytesFromHex_bytesToHexString rb hbytes
  refine ⟨hrt, ?_, ?_⟩
  · simp [generate_secret, hrt]
  · show (token_hex rb).length = 2 * cfg.secret_length
    rw [token_hex, bytesToHexString_length, hlen]

/-- C8 witness: `generate_secret` with the digest function `List.reverse`
and 32 random bytes of value 7 (the default configured secret length). -/
theorem generate_secret_spec_witness :
    bytesFromHex (generate_secret List.reverse (List.replicate 32 7)).1 =
        some (List.replicate 32 7) ∧
    (generate_secret List.reverse (List.replicate 32 7)).2 =
        bytesToHexString (List.reverse (List.replicate 32 7)) ∧
    (generate_secret List.reverse (List.replicate 32 7)).1.length =
        2 * defaultConfig.cross_chain.secret_length :=
  generate_secret_spec List.reverse defaultConfig.cross_chain
    (List.replicate 32 7) (by decide) (by decide)

/-! ## C9 — the expiry sweep's frame -/

/-- C9: one run of `monitor_active_swaps` leaves `swap_secrets` untouched
and maps every stored swap through `sweepSpecStep`: exactly the swaps in
status `Initiated` whose expiry condition holds move to `Expired` (with no
other field modified), and every other swap — in particular every swap in
`Completed`, `Refunded`, `Failed` or `Expired` — is left entirely
unchanged. -/
theorem monitor_transitions_exact (w3 : Web3Manager) (st : CoordinatorState) :
    (monitor_active_swaps w3 st).swap_secrets = st.swap_secrets ∧
    (∀ k, dictGet (monitor_active_swaps w3 st).active_swaps k =
        (dictGet st.active_swaps k).map (sweepSpecStep w3)) ∧
    (∀ k s, dictGet st.active_swaps k = some s →
        s.status = SwapStatus.initiated → is_swap_expired w3 s = true →
        dictGet (monitor_active_swaps w3 st).active_swaps k =
          some ({ s with status := SwapStatus.expired })) ∧
    (∀ k s, dictGet st.active_swaps k = some s →
        ¬ (s.status = SwapStatus.initiated ∧ is_swap_expired w3 s = true) →
        dictGet (monitor_active_swaps w3 st).active_swaps k = some s) := by
  refine ⟨rfl, fun k => monitor_loop_get w3 st.active_swaps k, ?_, ?_⟩
  · intro k s hget hst hexp
    simp [monitor_active_swaps, monitor_loop_get, hget, sweepSpecStep, hst, hexp]
  · intro k s hget hcond
    simp [monitor_active_swaps, monitor_loop_get, hget, sweepSpecStep]
    intro h1 h2
    exact absurd ⟨h1, h2⟩ hcond

/-- C9 witness: at height 200 the sweep moves the `Initiated` fixture swap
(time lock 100) to `Expired` and changes nothing else about it. -/
theorem monitor_transitions_exact_witness :
    dictGet (monitor_active_swaps (w3All 200) stInit).active_swaps "ab" =
      some ({ swapInit with status := SwapStatus.expired }) :=
  (monitor_transitions_exact (w3All 200) stInit).2.2.1 "ab" swapInit
    (by decide) (by decide) (by decide)

/-! ## C10 — unreadable or zero block height -/

/-- C10: when the source chain's latest height reads back as `None` or `0`
(both falsy in Python), an `Initiated` swap counts as not expired:
`refund_cross_chain_swap` returns `False` after only the height query
(no transaction is built or sent, the state is unchanged), and the sweep
leaves the swap's entry — status `Initiated` — exactly as it was. -/
theorem missing_or_zero_height_not_expired (w3 : Web3Manager)
    (st : CoordinatorState) (swap_id : String) (swap : CrossChainSwap)
    (hget : dictGet st.active_swaps swap_id = some swap)
    (hstatus : swap.status = SwapStatus.initiated)
    (hlb : w3.get_latest_block swap.source_chain = none ∨
           w3.get_latest_block swap.source_chain = some 0) :
    is_swap_expired w3 swap = false ∧
    refund_cross_chain_swap w3 st swap_id =
      ⟨false, st, [Call.latest swap.source_chain]⟩ ∧
    dictGet (monitor_active_swaps w3 st).active_swaps swap_id = some swap := by
  have hexp : is_swap_expired w3 swap = false := by
    rcases hlb with h | h <;> simp [is_swap_expired, h]
  refine ⟨hexp, ?_, ?_⟩
  · unfold refund_cross_chain_swap
    rw [hget]
    simp [hstatus, hexp]
  · simp [monitor_active_swaps, monitor_loop_get, hget, sweepSpecStep, hexp]

/-- C10 witness: the concrete `Initiated` fixture under an environment
whose height query fails. -/
theorem missing_or_zero_height_not_expired_witness :
    is_swap_expired w3NoHeight swapInit = false ∧
    refund_cross_chain_swap w3NoHeight stInit "ab" =
      ⟨false, stInit, [Call.latest "src"]⟩ ∧
    dictGet (monitor_active_swaps w3NoHeight stInit).active_swaps "ab" =
      some swapInit :=
  missing_or_zero_height_not_expired w3NoHeight stInit "ab" swapInit
    (by decide) (by decide) (Or.inl (by decide))

/-! ## C4 — what a step-2 failure does to the status -/

/-- C4 counterexample: step 1 succeeds (source-chain claim confirmed with
status 1) and then step 2 fails (building the target-chain mint returns
`None`): `complete_cross_chain_swap` returns `False` and leaves the state
unchanged — the swap stays `Initiated`, it is NOT set to `Failed`. -/
theorem complete_step2_failure_not_failed_cex :
    complete_cross_chain_swap w3TargetBuildFails stInit "ab" =
      ⟨false, stInit,
       [.build "src" "completeCrossChain", .send "src", .wait "src",
        .build "tgt" "mintForCrossChain"]⟩ := by
  decide

/-- C4 (amended): when the target-chain release fails by returning a
failure value — its build returns `None`, its send returns `None`, no
receipt arrives, or the receipt status is not 1 — after a fully successful
source-chain claim, `complete` returns `False` and leaves the swap
`Initiated` (the state is unchanged); the status `Failed` is instead set
by the `except` clause — e.g. when the stored secret is not valid
hexadecimal — which can fire before any chain step has run. -/
theorem complete_failure_semantics (w3 : Web3Manager) (st : CoordinatorState)
    (swap_id : String) (swap : CrossChainSwap) (secret : String)
    (hget : dictGet st.active_swaps swap_id = some swap)
    (hstatus : swap.status = SwapStatus.initiated)
    (hsec : dictGet st.swap_secrets swap_id = some secret)
    (hne : ¬ secret = "") :
    (∀ b1 b2 txd tx r,
       bytesFromHex (strip0x swap_id) = some b1 →
       bytesFromHex (strip0x secret) = some b2 →
       w3.build_transaction swap.source_chain "completeCrossChain" = some txd →
       w3.send_transaction swap.source_chain = some tx →
       w3.wait_for_transaction swap.source_chain tx = some r →
       r.status = 1 →
       (w3.build_transaction swap.target_chain "mintForCrossChain" = none ∨
        (∃ txd2, w3.build_transaction swap.target_chain "mintForCrossChain" = some txd2 ∧
           w3.send_transaction swap.target_chain = none) ∨
        (∃ txd2 tx2, w3.build_transaction swap.target_chain "mintForCrossChain" = some txd2 ∧
           w3.send_transaction swap.target_chain = some tx2 ∧
           w3.wait_for_transaction swap.target_chain tx2 = none) ∨
        (∃ txd2 tx2 r2, w3.build_transaction swap.target_chain "mintForCrossChain" = some txd2 ∧
           w3.send_transaction swap.target_chain = some tx2 ∧
           w3.wait_for_transaction swap.target_chain tx2 = some r2 ∧
           ¬ r2.status = 1)) →
       (complete_cross_chain_swap w3 st swap_id).ok = false ∧
       (complete_cross_chain_swap w3 st swap_id).state = st) ∧
    (bytesFromHex (strip0x secret) = none →
       complete_cross_chain_swap w3 st swap_id =
         ⟨false,
          { st with active_swaps := dictSet st.active_swaps swap_id { swap with status := SwapStatus.failed } },
          []⟩) := by
  constructor
  · intro b1 b2 txd tx r h1 h2 h3 h4 h5 h6 hfail
    have hred : complete_cross_chain_swap w3 st swap_id =
        complete_step2 w3 st swap_id swap
          [.build swap.source_chain "completeCrossChain", .send swap.source_chain,
           .wait swap.source_chain] := by
      unfold complete_cross_chain_swap
      rw [hget]
      simp [hstatus, hsec, hne, h1, h2, h3, h4, h5, h6]
    rw [hred]
    rcases hfail with hb | ⟨txd2, hb, hs⟩ | ⟨txd2, tx2, hb, hs, hw⟩ |
      ⟨txd2, tx2, r2, hb, hs, hw, hr⟩
    · simp [complete_step2, hb]
    · simp [complete_step2, hb, hs]
    · simp [complete_step2, hb, hs, hw]
    · simp [complete_step2, hb, hs, hw, hr]
  · intro hbad
    unfold complete_cross_chain_swap
    rw [hget]
    rcases hbx : bytesFromHex (strip0x swap_id) with _ | bs <;>
      simp [hstatus, hsec, hne, hbx, hbad]

/-- C4 witness: both halves of the amended theorem at concrete inputs — a
target-chain send failure after a confirmed source-chain claim returns
`False` with the state (status `Initiated`) unchanged, and a swap whose
stored secret `"xyz"` is not valid hex is moved to `Failed` with no chain
call at all. -/
theorem complete_failure_semantics_witness :
    ((complete_cross_chain_swap w3TargetSendFails stInit "ab").ok = false ∧
     (complete_cross_chain_swap w3TargetSendFails stInit "ab").state = stInit) ∧
    complete_cross_chain_swap (w3All 200) stBadSecret "ab" =
      ⟨false,
       { stBadSecret with active_swaps := dictSet stBadSecret.active_swaps "ab" { swapInit with status := SwapStatus.failed } },
       []⟩ :=
  ⟨(complete_failure_semantics w3TargetSendFails stInit "ab" swapInit "cd"
      (by decide) (by decide) (by decide) (by decide)).1 [171] [205] "tx" "src" ⟨1⟩
      (by decide) (by decide) (by decide) (by decide) (by decide) (by decide)
      (Or.inr (Or.inl ⟨"tx", by decide, by decide⟩)),
   (complete_failure_semantics (w3All 200) stBadSecret "ab" swapInit "xyz"
      (by decide) (by decide) (by decide) (by decide)).2 (by decide)⟩

/-! ## C5 — failed `initiate` leaves no record -/

/-- Any failing run of the `try` block of `_initiate_cross_chain_swap`
leaves the store untouched (helper for the `initiate` frame theorems). -/
theorem initiate_try_none_state (w3 : Web3Manager) (now : Int)
    (st : CoordinatorState) (sc tc se re : String) (amount : Int)
    (secret hash_lock : String) (tlb : Int)
    (h : (initiate_try w3 now st sc tc se re amount secret hash_lock tlb).swap? = none) :
    (initiate_try w3 now st sc tc se re amount secret hash_lock tlb).state = st := by
  unfold initiate_try at h ⊢
  repeat' split
  all_goals simp_all

/-- C5: whenever `initiate` returns failure (`None`) — validation failure
or any chain-step failure (hash-lock decode, build, send, confirmation,
non-success receipt, missing initiated event) — the coordinator state is
unchanged: no swap record and no secret is stored; and on a validation
failure no adapter call is made at all (empty call trace). -/
theorem initiate_failure_frame (cfg : Config) (w3 : Web3Manager)
    (sha256 : List Nat → List Nat) (rb : List Nat) (now : Int)
    (st : CoordinatorState) (sc tc se re : String) (amount : Int)
    (tlb : Option Int) (s? h? : Option String) :
    ((initiate_cross_chain_swap cfg w3 sha256 rb now st sc tc se re amount tlb s? h?).swap? = none →
      (initiate_cross_chain_swap cfg w3 sha256 rb now st sc tc se re amount tlb s? h?).state = st) ∧
    (validate_swap_params cfg sc tc se re amount = false →
      (initiate_cross_chain_swap cfg w3 sha256 rb now st sc tc se re amount tlb s? h?).state = st ∧
      (initiate_cross_chain_swap cfg w3 sha256 rb now st sc tc se re amount tlb s? h?).calls = []) := by
  constructor
  · intro hnone
    unfold initiate_cross_chain_swap at hnone ⊢
    by_cases hval : validate_swap_params cfg sc tc se re amount
    · simp only [hval, not_true_eq_false] at hnone ⊢
      exact initiate_try_none_state _ _ _ _ _ _ _ _ _ _ _ hnone
    · simp [hval]
  · intro hval
    simp [initiate_cross_chain_swap, hval]

/-- C5 witness: `initiate` with amount 0 (below the configured minimum 1)
leaves the store unchanged and performs zero adapter calls. -/
theorem initiate_failure_frame_witness :
    (initiate_cross_chain_swap defaultConfig (w3All 10) (fun l => l) [0] 99 stInit
      "ethereum" "bsc" "alice" "bob" 0 none none none).state = stInit ∧
    (initiate_cross_chain_swap defaultConfig (w3All 10) (fun l => l) [0] 99 stInit
      "ethereum" "bsc" "alice" "bob" 0 none none none).calls = [] :=
  (initiate_failure_frame defaultConfig (w3All 10) (fun l => l) [0] 99 stInit
    "ethereum" "bsc" "alice" "bob" 0 none none none).2 (by decide)

/-! ## C6 — duplicate swap ids -/

/-- C6 counterexample: with a record already stored under id `"ab"`
(`swapOld`), an `initiate` whose source-chain contract assigns the same id
`"ab"` does NOT fail: it returns the new swap and silently overwrites the
existing record (`self.active_swaps[swap_id] = swap` is a plain dict
assignment with no duplicate check). -/
theorem initiate_duplicate_id_overwrites_cex :
    ((initiate_cross_chain_swap defaultConfig (w3All 10) (fun l => l) [0] 99 stPre
        "ethereum" "bsc" "alice" "bob" 100 none (some "cd") (some "cd")).swap?.isSome
      = true) ∧
    dictGet (initiate_cross_chain_swap defaultConfig (w3All 10) (fun l => l) [0] 99 stPre
        "ethereum" "bsc" "alice" "bob" 100 none (some "cd") (some "cd")).state.active_swaps
      "ab" ≠ some swapOld := by
  decide

/-- Any successful run of the `try` block of `_initiate_cross_chain_swap`
stores the returned swap under its id, overwriting whatever was there
(helper for the store-overwrite theorem). -/
theorem initiate_try_some_stores (w3 : Web3Manager) (now : Int)
    (st : CoordinatorState) (sc tc se re : String) (amount : Int)
    (secret hash_lock : String) (tlb : Int) (s : CrossChainSwap)
    (h : (initiate_try w3 now st sc tc se re amount secret hash_lock tlb).swap? = some s) :
    dictGet (initiate_try w3 now st sc tc se re amount secret hash_lock tlb).state.active_swaps
      s.swap_id = some s := by
  unfold initiate_try at h ⊢
  repeat' split
  all_goals simp_all [dictGet_dictSet_self]
  subst h
  simp [dictGet_dictSet_self]

/-- C6 (amended): swap ids are NOT deduplicated — a successful `initiate`
unconditionally stores its new swap under the id extracted from the
receipt, overwriting any existing record with that id; creation never
fails because of a duplicate id. -/
theorem initiate_success_overwrites (cfg : Config) (w3 : Web3Manager)
    (sha256 : List Nat → List Nat) (rb : List Nat) (now : Int)
    (st : CoordinatorState) (sc tc se re : String) (amount : Int)
    (tlb : Option Int) (s? h? : Option String) (s : CrossChainSwap)
    (h : (initiate_cross_chain_swap cfg w3 sha256 rb now st sc tc se re amount tlb s? h?).swap? = some s) :
    dictGet (initiate_cross_chain_swap cfg w3 sha256 rb now st sc tc se re amount tlb s? h?).state.active_swaps
      s.swap_id = some s := by
  unfold initiate_cross_chain_swap at h ⊢
  by_cases hval : validate_swap_params cfg sc tc se re amount
  · simp only [hval, not_true_eq_false] at h ⊢
    exact initiate_try_some_stores _ _ _ _ _ _ _ _ _ _ _ _ h
  · simp [hval] at h

/-- C6 witness: the duplicate-id `initiate` of the counterexample stores
`swapNew` under `"ab"`, replacing `swapOld`. -/
theorem initiate_success_overwrites_witness :
    dictGet (initiate_cross_chain_swap defaultConfig (w3All 10) (fun l => l) [0] 99 stPre
        "ethereum" "bsc" "alice" "bob" 100 none (some "cd") (some "cd")).state.active_swaps
      swapNew.swap_id = some swapNew :=
  initiate_success_overwrites defaultConfig (w3All 10) (fun l => l) [0] 99 stPre
    "ethereum" "bsc" "alice" "bob" 100 none (some "cd") (some "cd") swapNew (by decide)

/-! ## C7 — strict expiry in `refund` -/

/-- C7: refund on an `Initiated` swap (with a non-negative time lock)
succeeds only when the source-chain height strictly exceeds `timeLock`: at
any height `h ≤ timeLock` — in particular at `h = timeLock` — it fails
after only the height query, with no transaction built or sent and the
state unchanged; while at height `timeLock + 1`, with a decodable swap id
and a confirming chain, it succeeds and the swap moves to `Refunded`
(secrets unchanged). -/
theorem refund_strict_expiry (w3 : Web3Manager) (st : CoordinatorState)
    (swap_id : String) (swap : CrossChainSwap)
    (hget : dictGet st.active_swaps swap_id = some swap)
    (hstatus : swap.status = SwapStatus.initiated)
    (htl : 0 ≤ swap.time_lock) :
    (∀ h : Int, w3.get_latest_block swap.source_chain = some h →
       h ≤ swap.time_lock →
       refund_cross_chain_swap w3 st swap_id =
         ⟨false, st, [Call.latest swap.source_chain]⟩) ∧
    (∀ b txd tx r,
       w3.get_latest_block swap.source_chain = some (swap.time_lock + 1) →
       bytesFromHex (strip0x swap_id) = some b →
       w3.build_transaction swap.source_chain "refundCrossChain" = some txd →
       w3.send_transaction swap.source_chain = some tx →
       w3.wait_for_transaction swap.source_chain tx = some r →
       r.status = 1 →
       (refund_cross_chain_swap w3 st swap_id).ok = true ∧
       dictGet (refund_cross_chain_swap w3 st swap_id).state.active_swaps swap_id =
         some ({ swap with status := SwapStatus.refunded }) ∧
       (refund_cross_chain_swap w3 st swap_id).state.swap_secrets = st.swap_secrets) := by
  constructor
  · intro h hlb hle
    have hexp : is_swap_expired w3 swap = false := by
      by_cases h0 : h = 0
      · simp [is_swap_expired, hlb, h0]
      · have hgt : ¬ (swap.time_lock < h) := by omega
        simp [is_swap_expired, hlb, h0, hgt]
    unfold refund_cross_chain_swap
    rw [hget]
    simp [hstatus, hexp]
  · intro b txd tx r hlb hhex hbuild hsend hwait hr1
    have h0 : ¬ (swap.time_lock + 1 = 0) := by omega
    have hexp : is_swap_expired w3 swap = true := by
      simp [is_swap_expired, hlb, h0]
    unfold refund_cross_chain_swap
    rw [hget]
    simp [hstatus, hexp, hhex, hbuild, hsend, hwait, hr1, dictGet_dictSet_self]

/-- C7 witness: the fixture swap (time lock 100) at height 101 with a fully
confirming chain is refunded; at height 101 the success half of the
theorem applies with swap id bytes `[171]`, transaction hash `"src"` and a
status-1 receipt. -/
theorem refund_strict_expiry_witness :
    (refund_cross_chain_swap (w3All 101) stInit "ab").ok = true ∧
    dictGet (refund_cross_chain_swap (w3All 101) stInit "ab").state.active_swaps "ab" =
      some ({ swapInit with status := SwapStatus.refunded }) ∧
    (refund_cross_chain_swap (w3All 101) stInit "ab").state.swap_secrets =
      stInit.swap_secrets :=
  (refund_strict_expiry (w3All 101) stInit "ab" swapInit
      (by decide) (by decide) (by decide)).2 [171] "tx" "src" ⟨1⟩
    (by decide) (by decide) (by decide) (by decide) (by decide) (by decide)
